import Mathlib

/-!
Verification of the vox-oxide audio-relay-service core against its
natural-language specification.

The Rust source is shallowly embedded below.  Pure control flow is
translated function-by-function from the source files

  * src/audio-relay-service/src/vc/mod.rs        (session handler, playback loop)
  * src/audio-relay-service/src/app.rs           (accept loop / admission)
  * src/audio-relay-service/src/common/services/auth.rs   (authenticator)
  * src/audio-relay-service/src/app_config.rs    (configuration resolution)
  * src/lib/lib-common-voxoxide/src/serde/ars_auth.rs     (auth types)

Calls into external crates (quinn, opus, rvoip_rtp_core, serde_json,
clap_serde_derive) are either taken as explicit function parameters or
modelled from the specification; each such definition says so in its doc
comment.
-/

namespace VoxOxide

/-! ## Media packet parsing (Frame Codec Adapter) -/

/-- A parsed media packet header plus payload, mirroring
rvoip_rtp_core::RtpPacket as used by the playback loop: payload type,
16-bit sequence number, 32-bit timestamp, 32-bit SSRC, opaque payload. -/
structure RtpPacket where
  payloadType : Nat
  sequence_number : Nat
  timestamp : Nat
  ssrc : Nat
  payload : List Nat
deriving DecidableEq

/-- Modelled from the spec: parse_packet of the Frame Codec Adapter
(implemented by the external rvoip_rtp_core crate, not under src/).
"decodes the fixed header, returns the header fields and a view of the
payload. Fails with MalformedPacket if the byte slice is shorter than the
minimum header or if reserved bits violate the wire definition."  The
fixed RTP header is 12 bytes; the version field (top two bits of byte 0)
must be 2. -/
def RtpPacket.parse (bytes : List Nat) : Option RtpPacket :=
  if bytes.length < 12 then none
  else if bytes.getD 0 0 / 64 ≠ 2 then none
  else some
    { payloadType := bytes.getD 1 0 % 128
      sequence_number := bytes.getD 2 0 * 256 + bytes.getD 3 0
      timestamp := ((bytes.getD 4 0 * 256 + bytes.getD 5 0) * 256
            + bytes.getD 6 0) * 256 + bytes.getD 7 0
      ssrc := ((bytes.getD 8 0 * 256 + bytes.getD 9 0) * 256
            + bytes.getD 10 0) * 256 + bytes.getD 11 0
      payload := bytes.drop 12 }

/-- Modelled from the spec: decode_frame of the Frame Codec Adapter (the
external opus crate, not under src/): "produces exactly one frame of
linear PCM at the configured sample rate (default 48 000 Hz, mono,
16-bit signed). The frame size is fixed at 20 ms (960 samples at
48 kHz). Fails with CodecError if the payload is not a valid compressed
frame."  The sample values themselves are opaque codec output; the model
decodes any nonempty payload to one 960-sample frame. -/
def decode_frame (payload : List Nat) : Option (List Int) :=
  if payload.length = 0 then none else some (List.replicate 960 0)

/-! ## Playback loop (vc/mod.rs, playback_loop)

The loop state is the PCM written to the per-connection wav sink plus the
`last_write_time` instant (in milliseconds of wall time).  One iteration
of the `tokio::select!` loop consumes either an arriving datagram or a
20-ms interval tick.  Errors returned by `?` terminate the loop. -/

/-- `SAMPLE_RATE as u128 / 1000` from playback_loop. -/
def samplesPerMs : Nat := 48000 / 1000

/-- The number of zero samples the tick arm of playback_loop writes:
`silence_duration.as_millis() * (SAMPLE_RATE as u128 / 1000)` where
`silence_duration = last_write_time.elapsed()`. -/
def silence_samples_per_tick (elapsedMs : Nat) : Nat :=
  elapsedMs * samplesPerMs

/-- Modelled from the spec (for comparison with the source's
silence_samples_per_tick): silence is emitted in units of whole frames —
"if the elapsed wall time since the last emitted frame exceeds one frame
duration, emit one frame of silence per elapsed frame duration", one
frame being 20 ms = 960 samples. -/
def spec_silence_samples_per_tick (elapsedMs : Nat) : Nat :=
  if 20 < elapsedMs then elapsedMs / 20 * 960 else 0

/-- Errors that abort playback_loop through the `?` operator. -/
inductive PlaybackError where
  /-- rvoip_rtp_core::RtpPacket::parse failed (spec: MalformedPacket). -/
  | malformedPacket
  /-- opus decode failed (spec: CodecError). -/
  | codecError
deriving DecidableEq

/-- State of playback_loop: samples written to the wav sink so far and
the `last_write_time` instant in ms. -/
structure PlaybackState where
  emitted : List Int
  lastWriteTime : Nat
deriving DecidableEq

/-- One firing of the `tokio::select!` in playback_loop: either a
datagram arrived or the 20-ms interval ticked, at wall time `now` ms. -/
inductive PlaybackEvent where
  | datagram (bytes : List Nat) (now : Nat)
  | tick (now : Nat)
deriving DecidableEq

/-- One iteration of playback_loop (vc/mod.rs lines 49-82).  The
datagram arm parses the bytes as an RTP packet (a parse error
propagates out of the loop via `?`), records `last_write_time = now`,
decodes the payload and appends the decoded samples to the wav sink.
The tick arm writes `elapsed_ms * (SAMPLE_RATE / 1000)` zero samples
and resets `last_write_time`.  No sequence-number state is kept. -/
def playback_step (s : PlaybackState) (e : PlaybackEvent) :
    Except PlaybackError PlaybackState :=
  match e with
  | .datagram bytes now =>
    match RtpPacket.parse bytes with
    | none => .error .malformedPacket
    | some rtp_packet =>
      match decode_frame rtp_packet.payload with
      | none => .error .codecError
      | some pcm => .ok { emitted := s.emitted ++ pcm, lastWriteTime := now }
  | .tick now =>
      .ok { emitted := s.emitted ++
              List.replicate (silence_samples_per_tick (now - s.lastWriteTime)) 0
            lastWriteTime := now }

/-- playback_loop over a sequence of select firings; the first error
terminates the loop. -/
def playback_run (s : PlaybackState) : List PlaybackEvent →
    Except PlaybackError PlaybackState
  | [] => .ok s
  | e :: rest =>
    match playback_step s e with
    | .error err => .error err
    | .ok s2 => playback_run s2 rest

/-- The accept loop wraps each connection in a spawned task
(app.rs lines 54-58): a connection future that resolves to an error is
logged with tracing::error and the task completes; nothing is re-raised
to the supervisor. -/
inductive TaskEnd where
  | finishedOk
  | finishedLoggedError (e : PlaybackError)
deriving DecidableEq

/-- The body of the task spawned per accepted connection
(app.rs lines 54-58). -/
def connection_task (res : Except PlaybackError Unit) : TaskEnd :=
  match res with
  | .ok _ => .finishedOk
  | .error e => .finishedLoggedError e

/-- The session handler's select arm for playback_loop
(vc/mod.rs lines 22-25, identically app.rs lines 151-153):
`_ = playback_loop(&mut connection) => { Ok(()) }` — whatever the
playback loop returns, Ok on remote close or Err on a malformed packet,
the arm discards it and handle_connection returns Ok(()). -/
def playback_arm_result (_res : Except PlaybackError PlaybackState) :
    Except PlaybackError Unit :=
  .ok ()

/-- A 13-byte media datagram with version 2, payload type 0, the given
sequence number, timestamp 0, SSRC 10 and a one-byte payload, as used in
the concrete playback scenarios. -/
def mediaDatagram (seq : Nat) : List Nat :=
  [128, 0, seq / 256, seq % 256, 0, 0, 0, 0, 0, 0, 0, 10, 1]

/-! ## Authentication (common/services/auth.rs and lib-common-voxoxide) -/

/-- ArsAuthError = AuthErrorSerde from
lib-common-voxoxide/src/serde/ars_auth.rs: exactly two variants. -/
inductive ArsAuthError where
  | NoAuthRequestReceived
  | InvalidAuthRequestReceived
deriving DecidableEq

/-- ArsAuthRequest = ArsAuthRequestSerde: one field placeholder_id (u32). -/
structure ArsAuthRequest where
  placeholder_id : Nat
deriving DecidableEq

/-- The derive_more Display implementation of AuthErrorSerde renders the
variant name; the repository's own test asserts
`error.to_string() == "InvalidAuthRequestReceived"`
(lib-common-voxoxide/src/lib.rs, test_to_string_serde). -/
def ArsAuthError.toMessage : ArsAuthError → String
  | .NoAuthRequestReceived => "NoAuthRequestReceived"
  | .InvalidAuthRequestReceived => "InvalidAuthRequestReceived"

/-- Model of quinn RecvStream::read_to_end(size_limit) (external crate):
buffers the stream to end-of-stream and returns its bytes, failing when
the stream is longer than size_limit. -/
def read_to_end (sizeLimit : Nat) (streamBytes : List Nat) :
    Option (List Nat) :=
  if streamBytes.length ≤ sizeLimit then some streamBytes else none

/-- Decidable equality for Except, used by the decidable statements
below. -/
instance {ε α : Type} [DecidableEq ε] [DecidableEq α] :
    DecidableEq (Except ε α) := fun a b =>
  match a, b with
  | .ok x, .ok y =>
    if h : x = y then .isTrue (by rw [h]) else .isFalse (by simp [h])
  | .error x, .error y =>
    if h : x = y then .isTrue (by rw [h]) else .isFalse (by simp [h])
  | .ok _, .error _ => .isFalse (by simp)
  | .error _, .ok _ => .isFalse (by simp)

/-- Result of auth_user_for_session: the returned Result together with
the messages written to the send side of the control stream. -/
structure AuthOutcome where
  result : Except ArsAuthError Unit
  sent : List String
deriving DecidableEq

/-- auth_user_for_session (common/services/auth.rs).  `firstBiStream` is
the outcome of connection.accept_bi(): none when no bidirectional stream
is offered, some bytes for the contents of the first control stream.
`decodeAuth` stands for serde_json::from_slice::<ArsAuthRequest>
(external crate).  The source accepts the first stream
(error → NoAuthRequestReceived), reads it to end with limit 1024
(error → InvalidAuthRequestReceived), JSON-decodes it
(error → InvalidAuthRequestReceived), then writes "OK" and returns
Ok(()); the decoded request is only logged, never inspected. -/
def auth_user_for_session (decodeAuth : List Nat → Option ArsAuthRequest)
    (firstBiStream : Option (List Nat)) : AuthOutcome :=
  match firstBiStream with
  | none => ⟨.error .NoAuthRequestReceived, []⟩
  | some stream =>
    match read_to_end 1024 stream with
    | none => ⟨.error .InvalidAuthRequestReceived, []⟩
    | some auth_request_bytes =>
      match decodeAuth auth_request_bytes with
      | none => ⟨.error .InvalidAuthRequestReceived, []⟩
      | some _auth_request => ⟨.ok (), ["OK"]⟩

/-! ## Session handler (vc/mod.rs, handle_connection) -/

/-- Observable outcome of vc::handle_connection: whether/how
connection.close was invoked (application code and reason bytes, as a
string) and whether the session reached the playback phase (became
Active). -/
structure ConnectionOutcome where
  close : Option (Nat × String)
  becameActive : Bool
deriving DecidableEq

/-- vc::handle_connection (vc/mod.rs lines 10-31) after the transport
handshake.  On an auth error it closes the connection with application
code 0 (`0u8.into()`) and reason `auth_error.to_string()`, returning the
error before the session is ever served.  On auth success it selects
between playback_loop and the cancellation token; `cancelObserved`
records that the cancellation arm fired, in which case the connection is
closed with application code 1 and reason "server shutdown". -/
def handle_connection (authResult : Except ArsAuthError Unit)
    (cancelObserved : Bool) : ConnectionOutcome :=
  match authResult with
  | .error e => ⟨some (0, e.toMessage), false⟩
  | .ok _ =>
    if cancelObserved then ⟨some (1, "server shutdown"), true⟩
    else ⟨none, true⟩

/-! ## Accept loop and connection admission (app.rs, App::main_loop) -/

/-- One firing of the accept loop's `tokio::select!`: either
endpoint.accept() yielded an incoming connection (with the given
address-validation status) or the cancellation token fired. -/
inductive AcceptEvent where
  | incoming (validated : Bool)
  | cancelled
deriving DecidableEq

/-- State of the accept loop.  `openConnections` models
endpoint.open_connections() (maintained by the quinn endpoint: an
admitted connection counts as open; a refused or retried one does not).
The refused/retried/accepted counters record the decision taken for each
incoming connection; `stopped` records that the loop has hit `break`. -/
structure MainLoopState where
  openConnections : Nat
  refused : Nat
  retried : Nat
  accepted : Nat
  stopped : Bool
deriving DecidableEq

/-- Initial accept-loop state: no open connections, loop running. -/
def MainLoopState.init : MainLoopState := ⟨0, 0, 0, 0, false⟩

/-- One iteration of App::main_loop (app.rs lines 40-70).  After `break`
no further events are processed.  For an incoming connection the checks
run in source order: `endpoint.open_connections() >= connection_limit`
→ conn.refuse(); `!conn.remote_address_validated()` → conn.retry();
otherwise the connection is handed to handle_connection in a spawned
task (and becomes an open connection of the endpoint). -/
def main_loop_step (connection_limit : Nat) (s : MainLoopState)
    (e : AcceptEvent) : MainLoopState :=
  if s.stopped then s
  else
    match e with
    | .cancelled => { s with stopped := true }
    | .incoming validated =>
      if connection_limit ≤ s.openConnections then
        { s with refused := s.refused + 1 }
      else if validated = false then
        { s with retried := s.retried + 1 }
      else
        { s with openConnections := s.openConnections + 1
                 accepted := s.accepted + 1 }

/-- App::main_loop over a sequence of select firings. -/
def main_loop_run (connection_limit : Nat) (s : MainLoopState)
    (events : List AcceptEvent) : MainLoopState :=
  events.foldl (main_loop_step connection_limit) s

/-! ## Configuration (app_config.rs) -/

/-- Environment (app_config.rs). -/
inductive Environment where
  | Production
  | Development
deriving DecidableEq

/-- AppConfig (app_config.rs): the recognized settings.  Paths and the
listen address are kept as strings. -/
structure AppConfig where
  environment : Environment
  key : String
  cert : String
  listen : String
  connection_limit : Nat
  log_level : String
deriving DecidableEq

/-- ClapSerdeOptionalAppConfig = <AppConfig as ClapSerde>::Opt
(generated by the clap_serde_derive macro): every setting as an Option,
some when the corresponding command-line flag was given. -/
structure ClapSerdeOptionalAppConfig where
  environment : Option Environment
  key : Option String
  cert : Option String
  listen : Option String
  connection_limit : Option Nat
  log_level : Option String
deriving DecidableEq

/-- ClapSerde's merge (external clap_serde_derive macro, documented by
the source comment "CLI commands (eg. --connection_limit 10) will always
be 10 despite config.yaml saying otherwise" and by the repository test
cli_overrides_yaml_values): every field supplied on the command line
replaces the file value; absent flags keep the file value. -/
def AppConfig.merge (cfg : AppConfig)
    (opt : ClapSerdeOptionalAppConfig) : AppConfig :=
  { environment := opt.environment.getD cfg.environment
    key := opt.key.getD cfg.key
    cert := opt.cert.getD cfg.cert
    listen := opt.listen.getD cfg.listen
    connection_limit := opt.connection_limit.getD cfg.connection_limit
    log_level := opt.log_level.getD cfg.log_level }

/-- The clap default for the --config flag is "config.yaml"
(app_config.rs, `#[clap(long = "config", default_value = "config.yaml")]`),
so args.config_path is the flag value when given and "config.yaml"
otherwise. -/
def config_path_arg (configFlag : Option String) : String :=
  configFlag.getD "config.yaml"

/-- AppConfig::from_args first lets the CONFIG_PATH_ENV environment
variable override args.config_path (app_config.rs lines 110-113). -/
def selected_config_path (envPath : Option String)
    (configFlag : Option String) : String :=
  envPath.getD (config_path_arg configFlag)

/-- AppConfig::from_args (app_config.rs lines 108-124).  `fs` models the
file system plus YAML parser: `fs path = none` when File::open fails,
`fs path = some none` when serde_yaml parsing fails, and
`fs path = some (some cfg)` for a successfully parsed config.  (The
source's `AppConfig::try_from(file_config)` is the reflexive infallible
TryFrom.)  On success the command-line options are merged over the file
config; any failure is returned as an error. -/
def AppConfig.from_args (fs : String → Option (Option AppConfig))
    (envPath : Option String) (configFlag : Option String)
    (opt : ClapSerdeOptionalAppConfig) : Option AppConfig :=
  match fs (selected_config_path envPath configFlag) with
  | none => none
  | some none => none
  | some (some file_config) => some (file_config.merge opt)

/-! ## Helper lemmas -/

/-- Once the accept loop has hit `break`, no further select firing
changes its state. -/
theorem main_loop_stopped_frozen (K : Nat) (s : MainLoopState)
    (h : s.stopped = true) :
    ∀ events : List AcceptEvent, main_loop_run K s events = s := by
  intro events
  induction events with
  | nil => rfl
  | cons e rest ih =>
    have hstep : main_loop_step K s e = s := by
      simp [main_loop_step, h]
    simpa [main_loop_run, hstep] using ih

/-- Running the accept loop over n validated incoming connections, with
room for all of them under the limit, accepts each one and counts it. -/
theorem main_loop_accept_run (K : Nat) :
    ∀ (n : Nat) (s : MainLoopState), s.stopped = false →
      s.openConnections + n ≤ K →
      main_loop_run K s (List.replicate n (.incoming true)) =
        { s with openConnections := s.openConnections + n
                 accepted := s.accepted + n } := by
  intro n
  induction n with
  | zero => intro s hs _; simp [main_loop_run]
  | succ m ih =>
    intro s hs hle
    have hlt : s.openConnections < K := by omega
    have hstep : main_loop_step K s (.incoming true) =
        { s with openConnections := s.openConnections + 1
                 accepted := s.accepted + 1 } := by
      simp [main_loop_step, hs, Nat.not_le.mpr hlt]
    have hrun := ih { s with openConnections := s.openConnections + 1
                             accepted := s.accepted + 1 } hs
      (show s.openConnections + 1 + m ≤ K by omega)
    simp only [List.replicate_succ, main_loop_run, List.foldl_cons]
    rw [hstep]
    simp only [main_loop_run] at hrun
    rw [hrun]
    have h1 : s.openConnections + 1 + m = s.openConnections + (m + 1) := by omega
    have h2 : s.accepted + 1 + m = s.accepted + (m + 1) := by omega
    rw [h1, h2]

/-! ## Claims -/

/-- Claim C1 (code_bug evaluation).  The spec requires the silence tick
to emit whole 960-sample frames only once the elapsed wall time exceeds
one 20-ms frame duration; the source's tick arm instead writes
`elapsed_ms * 48` zero samples unconditionally.  At 10 ms elapsed the
code emits 480 samples of silence where the claim requires none; at
30 ms elapsed it emits 1440 samples where the claim requires one whole
frame (960). -/
theorem silence_tick_divergence :
    silence_samples_per_tick 10 = 480 ∧
    spec_silence_samples_per_tick 10 = 0 ∧
    silence_samples_per_tick 30 = 1440 ∧
    spec_silence_samples_per_tick 30 = 960 ∧
    playback_step ⟨[], 0⟩ (.tick 10) = .ok ⟨List.replicate 480 0, 10⟩ :=
  ⟨rfl, rfl, rfl, rfl, rfl⟩

/-- Claim C2 (counterexample).  A datagram whose bytes fail media-packet
parsing does not leave the session processing subsequent datagrams: the
playback loop's step returns an error (the `?` on RtpPacket::parse),
terminating the loop; no per-session counter exists to increment. -/
theorem malformed_packet_terminates_loop_cex :
    playback_step ⟨[], 0⟩ (.datagram [] 0) = .error .malformedPacket :=
  rfl

/-- Claim C2 (amended).  For every datagram whose bytes fail
media-packet parsing, the playback loop terminates with a
MalformedPacket error; no per-session counter exists to increment.  The
session handler's select arm discards the playback loop's result and
returns Ok, so the error is silently swallowed — the accept-loop task's
error logging never fires for it, and nothing escalates beyond the
session. -/
theorem malformed_packet_policy (s : PlaybackState) (bytes : List Nat)
    (now : Nat) (h : RtpPacket.parse bytes = none) :
    playback_step s (.datagram bytes now) = .error .malformedPacket ∧
    playback_arm_result (.error .malformedPacket) = .ok () ∧
    connection_task (playback_arm_result (.error .malformedPacket)) =
      .finishedOk := by
  refine ⟨?_, rfl, rfl⟩
  simp [playback_step, h]

/-- Claim C2 (witness). -/
theorem malformed_packet_policy_witness :
    playback_step ⟨[], 0⟩ (.datagram [0] 5) = .error .malformedPacket ∧
    playback_arm_result (.error .malformedPacket) = .ok () ∧
    connection_task (playback_arm_result (.error .malformedPacket)) =
      .finishedOk :=
  malformed_packet_policy ⟨[], 0⟩ [0] 5 rfl

set_option maxRecDepth 8000 in
/-- Every mediaDatagram parses (13 bytes, version 2) and its one-byte
payload decodes to one 960-sample frame, which the playback loop appends
unconditionally. -/
theorem mediaDatagram_step (s : PlaybackState) (q now : Nat) :
    playback_step s (.datagram (mediaDatagram q) now) =
      .ok ⟨s.emitted ++ List.replicate 960 0, now⟩ := by
  simp [playback_step, mediaDatagram, RtpPacket.parse, decode_frame]

/-- Claim C3 (counterexample).  Sequences 0,1,2,3 followed by a
late-arriving duplicate of sequence 1: the playback loop keeps no
sequence-number state, so the late packet is decoded and emitted too —
the emitted output grows from 3840 to 4800 samples instead of staying
unchanged. -/
theorem late_packet_emitted_cex :
    (playback_run ⟨[], 0⟩
        [.datagram (mediaDatagram 0) 0, .datagram (mediaDatagram 1) 0,
         .datagram (mediaDatagram 2) 0, .datagram (mediaDatagram 3) 0]).map
      (fun s => s.emitted.length) = .ok 3840 ∧
    (playback_run ⟨[], 0⟩
        [.datagram (mediaDatagram 0) 0, .datagram (mediaDatagram 1) 0,
         .datagram (mediaDatagram 2) 0, .datagram (mediaDatagram 3) 0,
         .datagram (mediaDatagram 1) 0]).map
      (fun s => s.emitted.length) = .ok 4800 := by
  constructor <;>
    simp only [playback_run, mediaDatagram_step, Except.map, List.length_append,
      List.length_replicate, List.length_nil]

/-- Claim C3 (amended).  The playback loop performs no sequence-number
tracking at all: every datagram that parses and decodes successfully has
its PCM appended to the timeline in arrival order, regardless of its
sequence number — in particular a late or duplicate packet is emitted
rather than discarded. -/
theorem packet_emitted_regardless_of_sequence (s : PlaybackState)
    (bytes : List Nat) (now : Nat) (pkt : RtpPacket) (pcm : List Int)
    (hp : RtpPacket.parse bytes = some pkt)
    (hd : decode_frame pkt.payload = some pcm) :
    playback_step s (.datagram bytes now) =
      .ok ⟨s.emitted ++ pcm, now⟩ := by
  simp [playback_step, hp, hd]

/-- Claim C3 (witness): a duplicate of sequence 1 arriving after 3840
samples have been emitted is appended anyway. -/
theorem packet_emitted_regardless_of_sequence_witness :
    playback_step ⟨List.replicate 3840 0, 3⟩ (.datagram (mediaDatagram 1) 7) =
      .ok ⟨List.replicate 3840 0 ++ List.replicate 960 0, 7⟩ :=
  packet_emitted_regardless_of_sequence _ _ _ _ _ rfl rfl

/-- Claim C4.  Connection admission checks its policy in source order:
open-connection count at or above the limit refuses the connection
without counting it; an unvalidated remote address gets a retry without
counting; otherwise the connection is accepted, counted and handed to
the session handler.  With connection_limit = K, running the accept loop
from the initial state over K validated connections followed by one more
leaves the open-count at K with the extra connection refused. -/
theorem admission_policy (K : Nat) (s : MainLoopState) (validated : Bool) :
    (s.stopped = false → K ≤ s.openConnections →
      main_loop_step K s (.incoming validated) =
        { s with refused := s.refused + 1 }) ∧
    (s.stopped = false → s.openConnections < K →
      main_loop_step K s (.incoming false) =
        { s with retried := s.retried + 1 }) ∧
    (s.stopped = false → s.openConnections < K →
      main_loop_step K s (.incoming true) =
        { s with openConnections := s.openConnections + 1
                 accepted := s.accepted + 1 }) ∧
    (main_loop_run K .init
        (List.replicate K (.incoming true) ++ [.incoming validated]) =
      { openConnections := K, refused := 1, retried := 0, accepted := K
        stopped := false }) := by
  refine ⟨?_, ?_, ?_, ?_⟩
  · intro h1 h2
    simp [main_loop_step, h1, h2]
  · intro h1 h2
    simp [main_loop_step, h1, Nat.not_le.mpr h2]
  · intro h1 h2
    simp [main_loop_step, h1, Nat.not_le.mpr h2]
  · have hrun := main_loop_accept_run K K MainLoopState.init rfl
      (by simp [MainLoopState.init])
    have hsplit : main_loop_run K MainLoopState.init
        (List.replicate K (.incoming true) ++ [.incoming validated]) =
        main_loop_step K
          (main_loop_run K MainLoopState.init
            (List.replicate K (.incoming true))) (.incoming validated) := by
      simp [main_loop_run, List.foldl_append]
    rw [hsplit, hrun]
    simp [main_loop_step, MainLoopState.init]

/-- Claim C4 (witness). -/
theorem admission_policy_witness :
    main_loop_step 1 ⟨1, 0, 0, 1, false⟩ (.incoming true) =
      ⟨1, 1, 0, 1, false⟩ ∧
    main_loop_step 2 ⟨0, 0, 0, 0, false⟩ (.incoming false) =
      ⟨0, 0, 1, 0, false⟩ ∧
    main_loop_step 2 ⟨0, 0, 0, 0, false⟩ (.incoming true) =
      ⟨1, 0, 0, 1, false⟩ ∧
    main_loop_run 2 .init
        (List.replicate 2 (.incoming true) ++ [.incoming true]) =
      ⟨2, 1, 0, 2, false⟩ :=
  ⟨(admission_policy 1 ⟨1, 0, 0, 1, false⟩ true).1 rfl (by decide),
   (admission_policy 2 ⟨0, 0, 0, 0, false⟩ false).2.1 rfl (by decide),
   (admission_policy 2 ⟨0, 0, 0, 0, false⟩ true).2.2.1 rfl (by decide),
   (admission_policy 2 ⟨0, 0, 0, 0, false⟩ true).2.2.2⟩

/-- Claim C5 (counterexample).  On an auth failure the session handler
closes the connection with application code 0 but with reason
`auth_error.to_string()` — the auth error's display name — not
"auth failed": at the InvalidAuthRequestReceived error the reason bytes
read "InvalidAuthRequestReceived". -/
theorem auth_failure_close_reason_cex :
    handle_connection (.error .InvalidAuthRequestReceived) false =
      ⟨some (0, "InvalidAuthRequestReceived"), false⟩ ∧
    "InvalidAuthRequestReceived" ≠ "auth failed" :=
  ⟨rfl, by decide⟩

/-- Claim C5 (amended).  For every connection on which authentication
fails, the session handler closes the transport connection with
application code 0 and a reason equal to the auth error's display name
("NoAuthRequestReceived" or "InvalidAuthRequestReceived"), and the
session never becomes Active. -/
theorem auth_failure_close (e : ArsAuthError) (cancelObserved : Bool) :
    handle_connection (.error e) cancelObserved =
      ⟨some (0, e.toMessage), false⟩ :=
  rfl

/-- Claim C6.  The authenticator reads the first bidirectional control
stream to end-of-stream whenever it is within the 1024-byte bound, and
any control-stream payload exceeding 1024 bytes yields
InvalidAuthRequestReceived. -/
theorem auth_read_bound (decodeAuth : List Nat → Option ArsAuthRequest)
    (stream : List Nat) :
    (stream.length ≤ 1024 → read_to_end 1024 stream = some stream) ∧
    (1024 < stream.length →
      (auth_user_for_session decodeAuth (some stream)).result =
        .error .InvalidAuthRequestReceived) := by
  constructor
  · intro h
    simp [read_to_end, h]
  · intro h
    simp [auth_user_for_session, read_to_end, Nat.not_le.mpr h]

/-- Claim C6 (witness): a 1025-byte control payload is rejected as
InvalidAuthRequestReceived. -/
theorem auth_read_bound_witness :
    (auth_user_for_session (fun _ => none)
        (some (List.replicate 1025 0))).result =
      .error .InvalidAuthRequestReceived :=
  (auth_read_bound (fun _ => none) (List.replicate 1025 0)).2
    (by rw [List.length_replicate]; omega)

/-- Claim C7.  Once the accept loop's select observes the cancellation
token it breaks: its state is stopped and no later select firing accepts
another connection; and a session whose select observes the cancellation
token closes its transport connection with application code 1 and reason
"server shutdown". -/
theorem cancellation_shutdown (K : Nat) (s : MainLoopState)
    (events : List AcceptEvent) :
    (main_loop_step K s .cancelled).stopped = true ∧
    main_loop_run K (main_loop_step K s .cancelled) events =
      main_loop_step K s .cancelled ∧
    handle_connection (.ok ()) true =
      ⟨some (1, "server shutdown"), true⟩ := by
  have hstop : (main_loop_step K s .cancelled).stopped = true := by
    cases h : s.stopped <;> simp [main_loop_step, h]
  exact ⟨hstop, main_loop_stopped_frozen K _ hstop events, rfl⟩

/-- Claim C8.  Configuration resolution: the environment-variable path
beats the --config flag path, which beats the default "config.yaml";
the YAML file at the selected path is read and the command-line options
are merged over it, so that every setting present both on the command
line and in the selected YAML file takes its command-line value. -/
theorem config_priority (fs : String → Option (Option AppConfig))
    (envPath configFlag : Option String)
    (opt : ClapSerdeOptionalAppConfig) (file_config : AppConfig) :
    (∀ p, envPath = some p → selected_config_path envPath configFlag = p) ∧
    (∀ q, envPath = none → configFlag = some q →
      selected_config_path envPath configFlag = q) ∧
    (envPath = none → configFlag = none →
      selected_config_path envPath configFlag = "config.yaml") ∧
    (fs (selected_config_path envPath configFlag) = some (some file_config) →
      AppConfig.from_args fs envPath configFlag opt =
        some (file_config.merge opt)) ∧
    (∀ v, opt.environment = some v →
      (file_config.merge opt).environment = v) ∧
    (∀ v, opt.key = some v → (file_config.merge opt).key = v) ∧
    (∀ v, opt.cert = some v → (file_config.merge opt).cert = v) ∧
    (∀ v, opt.listen = some v → (file_config.merge opt).listen = v) ∧
    (∀ v, opt.connection_limit = some v →
      (file_config.merge opt).connection_limit = v) ∧
    (∀ v, opt.log_level = some v → (file_config.merge opt).log_level = v) := by
  refine ⟨?_, ?_, ?_, ?_, ?_, ?_, ?_, ?_, ?_, ?_⟩
  · intro p hp
    simp [selected_config_path, hp]
  · intro q he hq
    simp [selected_config_path, config_path_arg, he, hq]
  · intro he hq
    simp [selected_config_path, config_path_arg, he, hq]
  · intro hfile
    simp [AppConfig.from_args, hfile]
  · intro v hv
    simp [AppConfig.merge, hv]
  · intro v hv
    simp [AppConfig.merge, hv]
  · intro v hv
    simp [AppConfig.merge, hv]
  · intro v hv
    simp [AppConfig.merge, hv]
  · intro v hv
    simp [AppConfig.merge, hv]
  · intro v hv
    simp [AppConfig.merge, hv]

/-- The YAML config used by the concrete configuration scenarios,
mirroring tests/resources/valid-test-config.yaml
(environment development, connection_limit 100, log_level "info",
listen "[::1]:5555"). -/
def exampleYamlConfig : AppConfig :=
  ⟨.Development, "key.pem", "cert.pem", "[::1]:5555", 100, "info"⟩

/-- Command-line options giving only --connection-limit 999, mirroring
the repository test cli_overrides_yaml_values. -/
def exampleCliOpt : ClapSerdeOptionalAppConfig :=
  ⟨none, none, none, none, some 999, none⟩

/-- A file system with exactly one parseable YAML file, at "env.yaml". -/
def exampleFs (path : String) : Option (Option AppConfig) :=
  if path = "env.yaml" then some (some exampleYamlConfig) else none

/-- Claim C8 (witness): with the environment variable set to "env.yaml"
the flag path is ignored; without it the flag path is used, defaulting
to "config.yaml"; and --connection-limit 999 overrides the YAML value
100. -/
theorem config_priority_witness :
    selected_config_path (some "env.yaml") (some "cli.yaml") = "env.yaml" ∧
    selected_config_path none (some "cli.yaml") = "cli.yaml" ∧
    selected_config_path none none = "config.yaml" ∧
    AppConfig.from_args exampleFs (some "env.yaml") (some "cli.yaml")
        exampleCliOpt = some (exampleYamlConfig.merge exampleCliOpt) ∧
    (exampleYamlConfig.merge exampleCliOpt).connection_limit = 999 ∧
    (exampleYamlConfig.merge exampleCliOpt).log_level = "info" :=
  ⟨(config_priority exampleFs (some "env.yaml") (some "cli.yaml")
      exampleCliOpt exampleYamlConfig).1 "env.yaml" rfl,
   (config_priority exampleFs none (some "cli.yaml")
      exampleCliOpt exampleYamlConfig).2.1 "cli.yaml" rfl rfl,
   (config_priority exampleFs none none
      exampleCliOpt exampleYamlConfig).2.2.1 rfl rfl,
   (config_priority exampleFs (some "env.yaml") (some "cli.yaml")
      exampleCliOpt exampleYamlConfig).2.2.2.1 (by decide),
   (config_priority exampleFs (some "env.yaml") (some "cli.yaml")
      exampleCliOpt exampleYamlConfig).2.2.2.2.2.2.2.2.1 999 rfl,
   rfl⟩

/-- Claim C9.  The auth error type has no Rejected variant, and for
every control-stream payload within the 1024-byte bound that decodes as
an Auth Request envelope — whatever its placeholder_id — the
authenticator returns Ok and writes exactly "OK": rejection is
unreachable. -/
theorem auth_never_rejects (decodeAuth : List Nat → Option ArsAuthRequest)
    (stream : List Nat) (req : ArsAuthRequest)
    (hlen : stream.length ≤ 1024) (hdec : decodeAuth stream = some req) :
    auth_user_for_session decodeAuth (some stream) = ⟨.ok (), ["OK"]⟩ ∧
    ∀ e : ArsAuthError,
      e = .NoAuthRequestReceived ∨ e = .InvalidAuthRequestReceived := by
  constructor
  · simp [auth_user_for_session, read_to_end, hlen, hdec]
  · intro e
    cases e
    · exact Or.inl rfl
    · exact Or.inr rfl

/-- Claim C9 (witness): an empty payload decoding to an Auth Request
with placeholder_id 0 is accepted and answered with "OK". -/
theorem auth_never_rejects_witness :
    auth_user_for_session (fun _ => some ⟨0⟩) (some []) =
      ⟨.ok (), ["OK"]⟩ :=
  (auth_never_rejects (fun _ => some ⟨0⟩) [] ⟨0⟩ (by decide) rfl).1

/-- Claim C10.  AppConfig::from_args fails whenever the YAML file at the
resolved path cannot be opened or parsed, whatever command-line options
were supplied; and every successful resolution comes from a successfully
opened and parsed YAML file merged with the command-line options —
flags alone never produce a configuration. -/
theorem from_args_requires_file (fs : String → Option (Option AppConfig))
    (envPath configFlag : Option String)
    (opt : ClapSerdeOptionalAppConfig) :
    (fs (selected_config_path envPath configFlag) = none →
      AppConfig.from_args fs envPath configFlag opt = none) ∧
    (fs (selected_config_path envPath configFlag) = some none →
      AppConfig.from_args fs envPath configFlag opt = none) ∧
    (∀ cfg, AppConfig.from_args fs envPath configFlag opt = some cfg →
      ∃ file_config,
        fs (selected_config_path envPath configFlag) =
          some (some file_config) ∧ cfg = file_config.merge opt) := by
  refine ⟨?_, ?_, ?_⟩
  · intro h
    simp [AppConfig.from_args, h]
  · intro h
    simp [AppConfig.from_args, h]
  · intro cfg h
    revert h
    unfold AppConfig.from_args
    cases hfs : fs (selected_config_path envPath configFlag) with
    | none => intro h; cases h
    | some y =>
      cases y with
      | none => intro h; cases h
      | some file_config =>
        intro h
        exact ⟨file_config, rfl, (Option.some_inj.mp h).symm⟩

/-- Full command-line options: every recognized setting supplied as a
flag. -/
def exampleFullCliOpt : ClapSerdeOptionalAppConfig :=
  ⟨some .Production, some "k.pem", some "c.pem", some "[::1]:4433",
   some 10, some "debug"⟩

/-- Claim C10 (witness): with no readable config file, from_args fails
even though every recognized setting is supplied on the command line;
with an unparseable file it fails too. -/
theorem from_args_requires_file_witness :
    AppConfig.from_args (fun _ => none) none none exampleFullCliOpt =
      none ∧
    AppConfig.from_args (fun _ => some none) none none exampleFullCliOpt =
      none :=
  ⟨(from_args_requires_file (fun _ => none) none none
      exampleFullCliOpt).1 rfl,
   (from_args_requires_file (fun _ => some none) none none
      exampleFullCliOpt).2.1 rfl⟩

end VoxOxide
